import Mathlib

/-!
Verification of the micro web dashboard/proxy (client/web/web.go) against its
specification. The Go code is shallowly embedded: the slice of `http.Request`
state the server reads and writes becomes a `Request` record, `srv.ServeHTTP`
and the reverse-proxy director become pure functions, the gorilla mux route
table becomes a dispatch function, and the ACME / TLS option setup of `Run`
becomes a function from the configuration inputs to the produced server
options (or a fatal exit).
-/

namespace MicroWeb

/-- The fields of `net/url.URL` the server touches: scheme, host and path are
read and written by `srv.ServeHTTP` and the proxy director; the raw query and
fragment stand in for the remaining fields, which the server never writes. -/
structure URL where
  scheme : String
  host : String
  path : String
  rawQuery : String
  fragment : String
deriving DecidableEq

/-- `resolver.Endpoint` as used by web.go: the target service short name, the
selected instance address, and the path to forward. -/
structure Endpoint where
  Name : String
  Host : String
  Path : String
deriving DecidableEq

/-- The error taxonomy of resolution (spec section 7): `notResolved` when no
service matches, `noInstanceAvailable` when selection finds no live address. -/
inductive ResolveError
  | notResolved
  | noInstanceAvailable
  | otherErr
deriving DecidableEq

/-- The slice of `http.Request` state read and written in web.go: the URL, the
request `Host` field, the header map, and the context value stored under the
`res.Endpoint{}` key (`none` when the context holds no endpoint). -/
structure Request where
  url : URL
  host : String
  header : String → Option String
  ctxEndpoint : Option Endpoint

/-- The `BasePathHeader` package variable (web.go line 64). -/
def BasePathHeader : String := "X-Micro-Web-Base-Path"

/-- `http.Header.Set`: stores `v` under key `k`, replacing any prior value. -/
def headerSet (h : String → Option String) (k v : String) : String → Option String :=
  fun q => if q = k then some v else h q

/-- web.go lines 98-100: if the request URL has no host, default it to the
request `Host` field. -/
def setDefaultHost (r : Request) : Request :=
  if r.url.host.length = 0 then { r with url := { r.url with host := r.host } } else r

/-- web.go lines 101-103: if the request URL has no scheme, default it to
the cleartext scheme. -/
def setDefaultScheme (r : Request) : Request :=
  if r.url.scheme.length = 0 then { r with url := { r.url with scheme := "http" } } else r

/-- The request normalization at the top of `srv.ServeHTTP` (lines 96-103). -/
def setDefaults (r : Request) : Request :=
  setDefaultScheme (setDefaultHost r)

/-- Where `srv.ServeHTTP` hands the request: the proxy (`s.prx.ServeHTTP`) or
the dashboard mux router (`s.Router.ServeHTTP`), together with the request it
hands over. -/
inductive Dispatch
  | toProxy (r : Request)
  | toMux (r : Request)

/-- Lines 105-123 of `srv.ServeHTTP`, after the URL defaults are set: if the
context already holds an endpoint, dispatch to the proxy; otherwise call
`resolver.Resolve`, falling through to the mux on error and storing the
endpoint into the context on success. The second component counts the calls
made to `resolver.Resolve`. -/
def serveHTTPCore (resolve : Request → Except ResolveError Endpoint) (r : Request) :
    Dispatch × Nat :=
  match r.ctxEndpoint with
  | some _ => (Dispatch.toProxy r, 0)
  | none =>
    match resolve r with
    | Except.error _ => (Dispatch.toMux r, 1)
    | Except.ok endpoint => (Dispatch.toProxy { r with ctxEndpoint := some endpoint }, 1)

/-- `srv.ServeHTTP` (web.go lines 96-124): set URL defaults, then check the
context endpoint / resolve / dispatch. -/
def serveHTTP (resolve : Request → Except ResolveError Endpoint) (r : Request) :
    Dispatch × Nat :=
  serveHTTPCore resolve (setDefaults r)

/-- The reverse-proxy director (web.go lines 128-144): with no endpoint in the
context, rewrite the path to /not-found; with an endpoint, set the base-path
header, rewrite URL host and path, force the http scheme, and set the request
Host from the rewritten URL host. -/
def director (r : Request) : Request :=
  match r.ctxEndpoint with
  | none => { r with url := { r.url with path := "/not-found" } }
  | some endpoint =>
    let r1 := { r with header := headerSet r.header BasePathHeader ("/" ++ endpoint.Name) }
    let r2 := { r1 with url := { r1.url with host := endpoint.Host } }
    let r3 := { r2 with url := { r2.url with path := endpoint.Path } }
    let r4 := { r3 with url := { r3.url with scheme := "http" } }
    { r4 with host := r4.url.host }

/-- ASCII letter-or-digit, the character class of the catch-all route
pattern `[a-zA-Z0-9]`. -/
def isAlnumASCII (c : Char) : Bool :=
  ('a' ≤ c && c ≤ 'z') || ('A' ≤ c && c ≤ 'Z') || ('0' ≤ c && c ≤ '9')

/-- The gorilla mux route with pattern variable matching one or more ASCII
alphanumerics, registered as a path-prefix route (web.go line 474): it matches
any path beginning with a slash followed by at least one such character. -/
def matchServiceSegment (p : String) : Bool :=
  match p.data with
  | '/' :: c :: _ => isAlnumASCII c
  | _ => false

/-- The "/service/{name}" route (web.go line 472): the mux variable `name`
matches one or more non-slash characters. -/
def matchServiceDetail (p : String) : Bool :=
  match p.data with
  | '/' :: 's' :: 'e' :: 'r' :: 'v' :: 'i' :: 'c' :: 'e' :: '/' :: rest =>
    !rest.isEmpty && !rest.contains '/'
  | _ => false

/-- The routes of the dashboard route table registered in Run
(web.go lines 468-475). -/
inductive Route
  | favicon
  | notFoundRoute
  | clientRoute
  | servicesRoute
  | serviceDetail
  | rpc
  | serviceProxy
  | index
  | noRoute
deriving DecidableEq

/-- Dispatch of the dashboard mux router on the request path, in registration
order (web.go lines 468-475); `noRoute` is the default 404 of the mux. -/
def muxDispatch (p : String) : Route :=
  if p = "/favicon.ico" then Route.favicon
  else if p = "/not-found" then Route.notFoundRoute
  else if p = "/client" then Route.clientRoute
  else if p = "/services" then Route.servicesRoute
  else if matchServiceDetail p then Route.serviceDetail
  else if p = "/rpc" then Route.rpc
  else if matchServiceSegment p then Route.serviceProxy
  else if p = "/" then Route.index
  else Route.noRoute

/-- The dashboard templates rendered by the route handlers. -/
inductive Template
  | notFoundT
  | indexT
  | callT
  | registryT
  | serviceT
deriving DecidableEq

/-- The observable result of handling one inbound request. -/
inductive Outcome
  | page (t : Template)
  | forwarded (r : Request)
  | status (code : Nat)
  | fuelOut

/-- `srv.render` (web.go lines 353-395): parse the layout template, parse the
page template, then execute the combined template; each of the three steps
writes a 500 error response on failure, and only the final successful path
writes the rendered page. The parse and execution outcomes are parameters of
the model, because the template string constants (layoutTemplate,
notFoundTemplate and friends) are defined outside src. -/
def render (parseLayout : Except String Unit) (parseTmpl execute : Template → Except String Unit)
    (t : Template) : Outcome :=
  match parseLayout with
  | Except.error _ => Outcome.status 500
  | Except.ok _ =>
    match parseTmpl t with
    | Except.error _ => Outcome.status 500
    | Except.ok _ =>
      match execute t with
      | Except.error _ => Outcome.status 500
      | Except.ok _ => Outcome.page t

/-- Modelled from the spec: the `proxy` type wrapping the reverse-proxy
transport is outside src; per spec section 4.2 it forwards the director's
outbound request to its URL host. A hop sent to the server itself re-enters
as a fresh origin-form inbound request: empty URL scheme and host, request
Host set to the target host, and a fresh context holding no endpoint. -/
def rehop (r : Request) : Request :=
  { url := { scheme := "", host := "", path := r.url.path,
             rawQuery := r.url.rawQuery, fragment := "" }
    host := r.url.host
    header := r.header
    ctxEndpoint := none }

/-- One inbound request through the server: `srv.ServeHTTP`, then either the
proxy director (on proxy dispatch, including the catch-all route of the mux)
or the dashboard handlers. A proxied request whose rewritten target host is
the server's own address re-enters the server, bounded by `fuel`. -/
def handle (resolve : Request → Except ResolveError Endpoint) (selfHost : String)
    (parseLayout : Except String Unit) (parseTmpl execute : Template → Except String Unit) :
    Nat → Request → Outcome
  | 0, _ => Outcome.fuelOut
  | fuel + 1, r =>
    match serveHTTP resolve r with
    | (Dispatch.toProxy r1, _) =>
      let r2 := director r1
      if r2.url.host = selfHost then
        handle resolve selfHost parseLayout parseTmpl execute fuel (rehop r2)
      else Outcome.forwarded r2
    | (Dispatch.toMux r1, _) =>
      match muxDispatch r1.url.path with
      | Route.favicon => Outcome.status 200
      | Route.notFoundRoute => render parseLayout parseTmpl execute Template.notFoundT
      | Route.clientRoute => render parseLayout parseTmpl execute Template.callT
      | Route.servicesRoute => render parseLayout parseTmpl execute Template.registryT
      | Route.serviceDetail => render parseLayout parseTmpl execute Template.serviceT
      | Route.rpc => Outcome.status 200
      | Route.serviceProxy =>
        let r2 := director r1
        if r2.url.host = selfHost then
          handle resolve selfHost parseLayout parseTmpl execute fuel (rehop r2)
        else Outcome.forwarded r2
      | Route.index => render parseLayout parseTmpl execute Template.indexT
      | Route.noRoute => Outcome.status 404

/-- `memory.NewSync()`: the in-process lock-coordinated sync layer. -/
inductive SyncLayer
  | memorySync
deriving DecidableEq

/-- `service.Options().Store`: the service's durable store. -/
inductive Store
  | serviceStore
deriving DecidableEq

/-- `certmagic.NewStorage(memory.NewSync(), service.Options().Store)`
(web.go lines 504-507): the two-tier certificate cache. -/
structure CertmagicStorage where
  lockLayer : SyncLayer
  store : Store
deriving DecidableEq

/-- The cloudflare DNS provider configuration built in web.go lines 509-511:
both tokens are set from the CF_API_TOKEN environment value. -/
structure CloudflareConfig where
  authToken : String
  zoneToken : String
deriving DecidableEq

/-- A constructed ACME DNS challenge provider. -/
inductive ChallengeProvider
  | cloudflareDNS (cfg : CloudflareConfig)
deriving DecidableEq

/-- The ACME provider value passed to `server.ACMEProvider` (web.go lines
491 and 517-527): autocert, or certmagic with its option list
`AcceptToS(true), CA(ca), Cache(storage), ChallengeProvider(p),
OnDemand(false)`. -/
inductive ACMEProviderValue
  | autocertProvider
  | certmagicProvider (acceptToS : Bool) (ca : String) (cache : CertmagicStorage)
      (challenge : ChallengeProvider) (onDemand : Bool)
deriving DecidableEq

/-- The server options appended by the TLS/ACME setup block of Run. -/
inductive ServerOption
  | enableACME (b : Bool)
  | acmeHostsOpt (hs : List String)
  | acmeProviderOpt (p : ACMEProviderValue)
  | enableTLS (b : Bool)
  | tlsConfigOpt
deriving DecidableEq

/-- The result of the TLS/ACME setup block of Run: a `log.Fatal` (process
exits non-zero before `srv.Start` binds the listener), the early plain return
of the enable_tls branch on a TLS config error, or the produced options. -/
inductive RunTLSResult
  | fatal (msg : String)
  | earlyReturn (msg : String)
  | ok (opts : List ServerOption)
deriving DecidableEq

def RunTLSResult.isFatal : RunTLSResult → Bool
  | RunTLSResult.fatal _ => true
  | _ => false

/-- Whether the result carries a static TLS option (EnableTLS or TLSConfig). -/
def hasStaticTLSOpt : RunTLSResult → Bool
  | RunTLSResult.ok opts =>
    opts.any fun o =>
      match o with
      | ServerOption.enableTLS _ => true
      | ServerOption.tlsConfigOpt => true
      | _ => false
  | _ => false

/-- Web.go lines 485-540, the TLS/ACME option setup of Run. `mkCloudflare`
stands for the external `cloudflare.NewDNSProviderConfig` constructor and
`tlsConfigResult` for the external `helper.TLSConfig` call made in the
enable_tls branch; each `log.Fatal` becomes `RunTLSResult.fatal`. -/
def runTLSSetup (enableAcme enableTls : Bool)
    (acmeProviderName acmeChallengeProviderName cfApiToken : String)
    (hosts : List String) (ca : String)
    (mkCloudflare : CloudflareConfig → Except String ChallengeProvider)
    (tlsConfigResult : Except String Unit) : RunTLSResult :=
  if enableAcme then
    let opts := [ServerOption.enableACME true, ServerOption.acmeHostsOpt hosts]
    if acmeProviderName = "autocert" then
      RunTLSResult.ok (opts ++ [ServerOption.acmeProviderOpt ACMEProviderValue.autocertProvider])
    else if acmeProviderName = "certmagic" then
      if acmeChallengeProviderName ≠ "cloudflare" then
        RunTLSResult.fatal "The only implemented DNS challenge provider is cloudflare"
      else if cfApiToken.length = 0 then
        RunTLSResult.fatal "env variables CF_API_TOKEN and CF_ACCOUNT_ID must be set"
      else
        let storage : CertmagicStorage :=
          { lockLayer := SyncLayer.memorySync, store := Store.serviceStore }
        let config : CloudflareConfig := { authToken := cfApiToken, zoneToken := cfApiToken }
        match mkCloudflare config with
        | Except.error e => RunTLSResult.fatal e
        | Except.ok cp =>
          RunTLSResult.ok (opts ++ [ServerOption.acmeProviderOpt
            (ACMEProviderValue.certmagicProvider true ca storage cp false)])
    else
      RunTLSResult.fatal (acmeProviderName ++ " is not a valid ACME provider")
  else if enableTls then
    match tlsConfigResult with
    | Except.error e => RunTLSResult.earlyReturn e
    | Except.ok _ => RunTLSResult.ok [ServerOption.enableTLS true, ServerOption.tlsConfigOpt]
  else
    RunTLSResult.ok []

/-- `strings.ContainsAny`: whether any character of `chars` occurs in `s`. -/
def containsAny (s chars : String) : Bool :=
  s.data.any fun c => chars.data.contains c

/-- `strings.ToUpper` restricted to ASCII, which covers the service names the
dashboard displays. -/
def toUpperASCII (s : String) : String :=
  String.mk (s.data.map Char.toUpper)

/-- The display formatting of a web service short name in `srv.indexHandler`
(web.go lines 237-240): names of length at most three that contain a
character of "012345789" are uppercased. -/
def indexDisplayName (name : String) : String :=
  if name.length ≤ 3 then
    if containsAny name "012345789" then toUpperASCII name else name
  else name

/-- A resolver with no service registered: every resolution fails with
`notResolved`. -/
def failResolver : Request → Except ResolveError Endpoint :=
  fun _ => Except.error ResolveError.notResolved

/-- A header map with no entries. -/
def emptyHeader : String → Option String := fun _ => none

/-- A sample resolved endpoint. -/
def sampleEndpoint : Endpoint :=
  { Name := "chat", Host := "10.1.2.3:8080", Path := "/messages" }

/-- A sample inbound origin-form request to the dashboard host. -/
def sampleRequest (ep : Option Endpoint) (path : String) : Request :=
  { url := { scheme := "", host := "", path := path, rawQuery := "", fragment := "" }
    host := "web.local:8082"
    header := emptyHeader
    ctxEndpoint := ep }

/-- A cloudflare constructor that accepts its configuration. -/
def mkCloudflareOk : CloudflareConfig → Except String ChallengeProvider :=
  fun cfg => Except.ok (ChallengeProvider.cloudflareDNS cfg)

/-- A successful layout-template parse outcome (a well-formed layout). -/
def okParse : Except String Unit := Except.ok ()

/-- Per-template parse/execution outcomes that all succeed (well-formed
template constants). -/
def okTemplateStep : Template → Except String Unit := fun _ => Except.ok ()

theorem setDefaults_frame (r : Request) :
    (setDefaults r).url.path = r.url.path ∧
    (setDefaults r).url.rawQuery = r.url.rawQuery ∧
    (setDefaults r).url.fragment = r.url.fragment ∧
    (setDefaults r).host = r.host ∧
    (setDefaults r).header = r.header ∧
    (setDefaults r).ctxEndpoint = r.ctxEndpoint := by
  unfold setDefaults setDefaultScheme setDefaultHost
  by_cases h1 : r.url.host.length = 0 <;> simp [h1] <;>
    by_cases h2 : r.url.scheme.length = 0 <;> simp [h2]

theorem setDefaults_ctx (r : Request) :
    (setDefaults r).ctxEndpoint = r.ctxEndpoint :=
  (setDefaults_frame r).2.2.2.2.2

theorem serveHTTP_of_ctx_some (resolve : Request → Except ResolveError Endpoint)
    (r : Request) (e : Endpoint) (h : r.ctxEndpoint = some e) :
    serveHTTP resolve r = (Dispatch.toProxy (setDefaults r), 0) := by
  have hc : (setDefaults r).ctxEndpoint = some e := by rw [setDefaults_ctx, h]
  simp [serveHTTP, serveHTTPCore, hc]

theorem director_of_ctx_none (r : Request) (h : r.ctxEndpoint = none) :
    director r = { r with url := { r.url with path := "/not-found" } } := by
  simp [director, h]

theorem director_of_ctx_some (r : Request) (e : Endpoint) (h : r.ctxEndpoint = some e) :
    director r =
      { url := { scheme := "http", host := e.Host, path := e.Path,
                 rawQuery := r.url.rawQuery, fragment := r.url.fragment }
        host := e.Host
        header := headerSet r.header BasePathHeader ("/" ++ e.Name)
        ctxEndpoint := some e } := by
  simp [director, h]

theorem setDefaultHost_host (r : Request) :
    (setDefaultHost r).url.host = if r.url.host.length = 0 then r.host else r.url.host := by
  unfold setDefaultHost
  split <;> rfl

theorem setDefaultScheme_host (r : Request) :
    (setDefaultScheme r).url.host = r.url.host := by
  unfold setDefaultScheme
  split <;> rfl

theorem setDefaultHost_scheme (r : Request) :
    (setDefaultHost r).url.scheme = r.url.scheme := by
  unfold setDefaultHost
  split <;> rfl

theorem setDefaultScheme_scheme (r : Request) :
    (setDefaultScheme r).url.scheme = if r.url.scheme.length = 0 then "http" else r.url.scheme := by
  unfold setDefaultScheme
  split <;> rfl

theorem serveHTTP_of_ctx_none (resolve : Request → Except ResolveError Endpoint)
    (r : Request) (h : r.ctxEndpoint = none) :
    serveHTTP resolve r =
      ((match resolve (setDefaults r) with
        | Except.error _ => Dispatch.toMux (setDefaults r)
        | Except.ok e => Dispatch.toProxy { setDefaults r with ctxEndpoint := some e }), 1) := by
  have hc : (setDefaults r).ctxEndpoint = none := by rw [setDefaults_ctx, h]
  unfold serveHTTP serveHTTPCore
  rw [hc]
  cases resolve (setDefaults r) <;> rfl

/-- C1: for a request whose context already holds an endpoint under the
resolver Endpoint key, ServeHTTP forwards to the proxy with zero calls to
resolver.Resolve (for every resolver), and the proxy director rewrites the
outbound request using exactly that endpoint: base-path header from its name,
URL host and request Host from its host, URL path from its path. -/
theorem C1_single_resolution_invariant
    (resolve : Request → Except ResolveError Endpoint) (r : Request)
    (e : Endpoint) (h : r.ctxEndpoint = some e) :
    serveHTTP resolve r = (Dispatch.toProxy (setDefaults r), 0) ∧
    (director (setDefaults r)).header BasePathHeader = some ("/" ++ e.Name) ∧
    (director (setDefaults r)).url.host = e.Host ∧
    (director (setDefaults r)).url.path = e.Path ∧
    (director (setDefaults r)).host = e.Host := by
  have hc : (setDefaults r).ctxEndpoint = some e := by rw [setDefaults_ctx, h]
  refine ⟨serveHTTP_of_ctx_some resolve r e h, ?_, ?_, ?_, ?_⟩ <;>
    simp [director_of_ctx_some (setDefaults r) e hc, headerSet]

theorem C1_witness :
    (sampleRequest (some sampleEndpoint) "/x").ctxEndpoint = some sampleEndpoint ∧
    (serveHTTP failResolver (sampleRequest (some sampleEndpoint) "/x") =
        (Dispatch.toProxy (setDefaults (sampleRequest (some sampleEndpoint) "/x")), 0) ∧
      (director (setDefaults (sampleRequest (some sampleEndpoint) "/x"))).header BasePathHeader =
        some ("/" ++ sampleEndpoint.Name) ∧
      (director (setDefaults (sampleRequest (some sampleEndpoint) "/x"))).url.host =
        sampleEndpoint.Host ∧
      (director (setDefaults (sampleRequest (some sampleEndpoint) "/x"))).url.path =
        sampleEndpoint.Path ∧
      (director (setDefaults (sampleRequest (some sampleEndpoint) "/x"))).host =
        sampleEndpoint.Host) :=
  ⟨rfl, C1_single_resolution_invariant failResolver (sampleRequest (some sampleEndpoint) "/x")
    sampleEndpoint rfl⟩

/-- C2: for a request carrying endpoint e in its context, the director sets
the base-path header to "/" ++ e.Name, the URL host and the request Host to
e.Host, the URL path to e.Path, and the URL scheme to "http" whatever the
inbound scheme was; the remaining URL fields are unaltered. -/
theorem C2_director_rewrite (r : Request) (e : Endpoint) (h : r.ctxEndpoint = some e) :
    (director r).header BasePathHeader = some ("/" ++ e.Name) ∧
    (director r).url.host = e.Host ∧
    (director r).host = e.Host ∧
    (director r).url.path = e.Path ∧
    (director r).url.scheme = "http" ∧
    (director r).url.rawQuery = r.url.rawQuery ∧
    (director r).url.fragment = r.url.fragment := by
  rw [director_of_ctx_some r e h]
  simp [headerSet]

theorem C2_witness :
    (sampleRequest (some sampleEndpoint) "/y").ctxEndpoint = some sampleEndpoint ∧
    ((director (sampleRequest (some sampleEndpoint) "/y")).header BasePathHeader =
        some ("/" ++ sampleEndpoint.Name) ∧
      (director (sampleRequest (some sampleEndpoint) "/y")).url.host = sampleEndpoint.Host ∧
      (director (sampleRequest (some sampleEndpoint) "/y")).host = sampleEndpoint.Host ∧
      (director (sampleRequest (some sampleEndpoint) "/y")).url.path = sampleEndpoint.Path ∧
      (director (sampleRequest (some sampleEndpoint) "/y")).url.scheme = "http" ∧
      (director (sampleRequest (some sampleEndpoint) "/y")).url.rawQuery =
        (sampleRequest (some sampleEndpoint) "/y").url.rawQuery ∧
      (director (sampleRequest (some sampleEndpoint) "/y")).url.fragment =
        (sampleRequest (some sampleEndpoint) "/y").url.fragment) :=
  ⟨rfl, C2_director_rewrite (sampleRequest (some sampleEndpoint) "/y") sampleEndpoint rfl⟩

/-- C3: for a request with no endpoint in its context, ServeHTTP calls
resolver.Resolve exactly once (call count 1); on error the request goes to
the dashboard mux with the context still holding no endpoint, and on success
the returned endpoint is stored into the context before the proxy dispatch. -/
theorem C3_resolve_once_fallthrough (resolve : Request → Except ResolveError Endpoint)
    (r : Request) (h : r.ctxEndpoint = none) :
    serveHTTP resolve r =
      ((match resolve (setDefaults r) with
        | Except.error _ => Dispatch.toMux (setDefaults r)
        | Except.ok e => Dispatch.toProxy { setDefaults r with ctxEndpoint := some e }), 1) ∧
    (setDefaults r).ctxEndpoint = none :=
  ⟨serveHTTP_of_ctx_none resolve r h, by rw [setDefaults_ctx, h]⟩

theorem C3_witness :
    (sampleRequest none "/chat/messages").ctxEndpoint = none ∧
    (serveHTTP failResolver (sampleRequest none "/chat/messages") =
        ((match failResolver (setDefaults (sampleRequest none "/chat/messages")) with
          | Except.error _ => Dispatch.toMux (setDefaults (sampleRequest none "/chat/messages"))
          | Except.ok e => Dispatch.toProxy
              { setDefaults (sampleRequest none "/chat/messages") with ctxEndpoint := some e }), 1) ∧
      (setDefaults (sampleRequest none "/chat/messages")).ctxEndpoint = none) :=
  ⟨rfl, C3_resolve_once_fallthrough failResolver (sampleRequest none "/chat/messages") rfl⟩

/-- C4: for a request reaching the director with no endpoint in its context,
the director rewrites only the URL path, to /not-found — header map, request
Host, URL host, scheme, query and fragment are untouched — and that path is
routed to the not-found handler by the dashboard route table. -/
theorem C4_no_endpoint_rewrites_to_not_found (r : Request) (h : r.ctxEndpoint = none) :
    director r = { r with url := { r.url with path := "/not-found" } } ∧
    muxDispatch "/not-found" = Route.notFoundRoute :=
  ⟨director_of_ctx_none r h, by decide⟩

theorem C4_witness :
    (sampleRequest none "/nope").ctxEndpoint = none ∧
    (director (sampleRequest none "/nope") =
        { sampleRequest none "/nope" with
            url := { (sampleRequest none "/nope").url with path := "/not-found" } } ∧
      muxDispatch "/not-found" = Route.notFoundRoute) :=
  ⟨rfl, C4_no_endpoint_rewrites_to_not_found (sampleRequest none "/nope") rfl⟩

/-- C10: the normalization at the top of ServeHTTP: the URL host is defaulted
to the request Host when empty, the URL scheme to "http" when empty, and no
other request field changes; ServeHTTP then runs its endpoint check and
resolution on exactly the normalized request. -/
theorem C10_url_normalization (r : Request) :
    (setDefaults r).url.host = (if r.url.host.length = 0 then r.host else r.url.host) ∧
    (setDefaults r).url.scheme = (if r.url.scheme.length = 0 then "http" else r.url.scheme) ∧
    (setDefaults r).url.path = r.url.path ∧
    (setDefaults r).url.rawQuery = r.url.rawQuery ∧
    (setDefaults r).url.fragment = r.url.fragment ∧
    (setDefaults r).host = r.host ∧
    (setDefaults r).header = r.header ∧
    (setDefaults r).ctxEndpoint = r.ctxEndpoint ∧
    (∀ resolve, serveHTTP resolve r = serveHTTPCore resolve (setDefaults r)) := by
  have hf := setDefaults_frame r
  refine ⟨?_, ?_, hf.1, hf.2.1, hf.2.2.1, hf.2.2.2.1, hf.2.2.2.2.1, hf.2.2.2.2.2,
    fun resolve => rfl⟩
  · rw [setDefaults, setDefaultScheme_host, setDefaultHost_host]
  · rw [setDefaults, setDefaultScheme_scheme, setDefaultHost_scheme]

theorem handle_mux_serviceProxy_self (resolve : Request → Except ResolveError Endpoint)
    (selfHost : String) (parseLayout : Except String Unit)
    (parseTmpl execute : Template → Except String Unit) (fuel : Nat) (r r1 : Request)
    (hs : serveHTTP resolve r = (Dispatch.toMux r1, 1))
    (hroute : muxDispatch r1.url.path = Route.serviceProxy)
    (hctx1 : r1.ctxEndpoint = none)
    (hh : r1.url.host = selfHost) :
    handle resolve selfHost parseLayout parseTmpl execute (fuel + 1) r =
      handle resolve selfHost parseLayout parseTmpl execute fuel (rehop (director r1)) := by
  have hdh : (director r1).url.host = selfHost := by
    rw [director_of_ctx_none r1 hctx1]
    exact hh
  simp only [handle, hs, hroute]
  rw [if_pos hdh]

theorem handle_mux_notFound (resolve : Request → Except ResolveError Endpoint)
    (selfHost : String) (parseLayout : Except String Unit)
    (parseTmpl execute : Template → Except String Unit) (fuel : Nat) (r r1 : Request)
    (hs : serveHTTP resolve r = (Dispatch.toMux r1, 1))
    (hroute : muxDispatch r1.url.path = Route.notFoundRoute) :
    handle resolve selfHost parseLayout parseTmpl execute (fuel + 1) r =
      render parseLayout parseTmpl execute Template.notFoundT := by
  simp only [handle, hs, hroute]

/-- C5: with a resolver for which every resolution fails with notResolved
(the requested service name is unregistered), an inbound request to the
server whose path the route table sends to the catch-all proxy route is
answered with the static not-found page, never an error status: the director
rewrites the path to /not-found on the server's own host, the re-entered
request reaches the not-found handler, and rendering the well-formed
not-found template (its parse and execution succeed) yields the page. -/
theorem C5_unregistered_yields_not_found_page
    (resolve : Request → Except ResolveError Endpoint) (selfHost : String)
    (parseLayout : Except String Unit) (parseTmpl execute : Template → Except String Unit)
    (r : Request)
    (hres : ∀ q, resolve q = Except.error ResolveError.notResolved)
    (hctx : r.ctxEndpoint = none)
    (hhost : r.url.host = "" ∨ r.url.host = selfHost)
    (hself : r.host = selfHost)
    (hroute : muxDispatch r.url.path = Route.serviceProxy)
    (hlay : parseLayout = Except.ok ())
    (htmpl : parseTmpl Template.notFoundT = Except.ok ())
    (hexec : execute Template.notFoundT = Except.ok ()) :
    handle resolve selfHost parseLayout parseTmpl execute 2 r =
      Outcome.page Template.notFoundT := by
  have hc : (setDefaults r).ctxEndpoint = none := by rw [setDefaults_ctx, hctx]
  have hs : serveHTTP resolve r = (Dispatch.toMux (setDefaults r), 1) := by
    rw [serveHTTP_of_ctx_none resolve r hctx, hres (setDefaults r)]
  have hh1 : (setDefaults r).url.host = selfHost := by
    rw [setDefaults, setDefaultScheme_host, setDefaultHost_host]
    rcases hhost with hcase | hcase
    · rw [if_pos (by rw [hcase]; rfl), hself]
    · split
      · exact hself
      · exact hcase
  have hd : director (setDefaults r) =
      { setDefaults r with url := { (setDefaults r).url with path := "/not-found" } } :=
    director_of_ctx_none _ hc
  have hstep1 : handle resolve selfHost parseLayout parseTmpl execute (1 + 1) r =
      handle resolve selfHost parseLayout parseTmpl execute 1
        (rehop (director (setDefaults r))) := by
    refine handle_mux_serviceProxy_self resolve selfHost parseLayout parseTmpl execute 1 r
      (setDefaults r) hs ?_ hc hh1
    rw [(setDefaults_frame r).1]
    exact hroute
  have hq : rehop (director (setDefaults r)) =
      { url := { scheme := "", host := "", path := "/not-found",
                 rawQuery := (setDefaults r).url.rawQuery, fragment := "" }
        host := selfHost
        header := (setDefaults r).header
        ctxEndpoint := none } := by
    rw [hd]
    simp [rehop, hh1]
  rw [show (2 : Nat) = 1 + 1 from rfl, hstep1, hq]
  rw [handle_mux_notFound resolve selfHost parseLayout parseTmpl execute 0 _ (setDefaults _)
    (by rw [serveHTTP_of_ctx_none resolve _ rfl, hres])
    (by rw [(setDefaults_frame _).1]
        show muxDispatch "/not-found" = Route.notFoundRoute
        decide)]
  simp only [render, hlay, htmpl, hexec]

theorem C5_witness :
    (∀ q, failResolver q = Except.error ResolveError.notResolved) ∧
    (sampleRequest none "/chat/messages").ctxEndpoint = none ∧
    ((sampleRequest none "/chat/messages").url.host = "" ∨
      (sampleRequest none "/chat/messages").url.host = "web.local:8082") ∧
    (sampleRequest none "/chat/messages").host = "web.local:8082" ∧
    muxDispatch (sampleRequest none "/chat/messages").url.path = Route.serviceProxy ∧
    okParse = Except.ok () ∧
    okTemplateStep Template.notFoundT = Except.ok () ∧
    handle failResolver "web.local:8082" okParse okTemplateStep okTemplateStep 2
      (sampleRequest none "/chat/messages") = Outcome.page Template.notFoundT :=
  ⟨fun _ => rfl, rfl, Or.inl rfl, rfl, by decide, rfl, rfl,
    C5_unregistered_yields_not_found_page failResolver "web.local:8082" okParse okTemplateStep
      okTemplateStep (sampleRequest none "/chat/messages") (fun _ => rfl) rfl (Or.inl rfl) rfl
      (by decide) rfl rfl rfl⟩

/-- C6: with ACME enabled, each of the invalid configurations is fatal (the
process exits non-zero before the listener binds): a provider name other than
autocert or certmagic, certmagic with a challenge provider other than
cloudflare, and certmagic with an empty CF_API_TOKEN value. -/
theorem C6_acme_config_fatal (et : Bool) (apn acp token : String)
    (hosts : List String) (ca : String)
    (mk : CloudflareConfig → Except String ChallengeProvider)
    (tc : Except String Unit) :
    (apn ≠ "autocert" ∧ apn ≠ "certmagic" →
      (runTLSSetup true et apn acp token hosts ca mk tc).isFatal = true) ∧
    (acp ≠ "cloudflare" →
      (runTLSSetup true et "certmagic" acp token hosts ca mk tc).isFatal = true) ∧
    (token = "" →
      (runTLSSetup true et "certmagic" acp token hosts ca mk tc).isFatal = true) := by
  refine ⟨fun h => ?_, fun h => ?_, fun h => ?_⟩
  · simp [runTLSSetup, h.1, h.2, RunTLSResult.isFatal]
  · simp [runTLSSetup, h, RunTLSResult.isFatal]
  · subst h
    by_cases hcp : acp = "cloudflare" <;> simp [runTLSSetup, hcp, RunTLSResult.isFatal]

theorem C6_witness :
    (runTLSSetup true false "bogus" "cloudflare" "tok" [] "ca"
        mkCloudflareOk (Except.ok ())).isFatal = true ∧
    (runTLSSetup true false "certmagic" "route53" "tok" [] "ca"
        mkCloudflareOk (Except.ok ())).isFatal = true ∧
    (runTLSSetup true false "certmagic" "route53" "" [] "ca"
        mkCloudflareOk (Except.ok ())).isFatal = true :=
  ⟨(C6_acme_config_fatal false "bogus" "cloudflare" "tok" [] "ca"
      mkCloudflareOk (Except.ok ())).1 (by decide),
    (C6_acme_config_fatal false "certmagic" "route53" "tok" [] "ca"
      mkCloudflareOk (Except.ok ())).2.1 (by decide),
    (C6_acme_config_fatal false "certmagic" "route53" "" [] "ca"
      mkCloudflareOk (Except.ok ())).2.2 rfl⟩

/-- C7: with ACME enabled the static TLS branch is never evaluated (the
result does not depend on the TLS config outcome) and no static TLS option is
produced; with neither ACME nor static TLS enabled, no TLS-related option is
set at all. -/
theorem C7_acme_static_tls_exclusion (et : Bool) (apn acp token : String)
    (hosts : List String) (ca : String)
    (mk : CloudflareConfig → Except String ChallengeProvider)
    (tc tc2 : Except String Unit) :
    runTLSSetup true et apn acp token hosts ca mk tc =
      runTLSSetup true et apn acp token hosts ca mk tc2 ∧
    hasStaticTLSOpt (runTLSSetup true et apn acp token hosts ca mk tc) = false ∧
    runTLSSetup false false apn acp token hosts ca mk tc = RunTLSResult.ok [] := by
  refine ⟨rfl, ?_, rfl⟩
  by_cases h1 : apn = "autocert"
  · simp [runTLSSetup, h1, hasStaticTLSOpt]
  · by_cases h2 : apn = "certmagic"
    · by_cases h3 : acp = "cloudflare"
      · by_cases h4 : token.length = 0
        · simp [runTLSSetup, h1, h2, h3, h4, hasStaticTLSOpt]
        · cases hmk : mk { authToken := token, zoneToken := token } <;>
            simp [runTLSSetup, h1, h2, h3, h4, hmk, hasStaticTLSOpt]
      · simp [runTLSSetup, h1, h2, h3, hasStaticTLSOpt]
    · simp [runTLSSetup, h1, h2, hasStaticTLSOpt]

/-- C8: under certmagic with the cloudflare challenge provider and a
non-empty CF_API_TOKEN, the provider is constructed with on-demand issuance
disabled and with the two-tier cache combining the in-process sync layer and
the service's durable store. -/
theorem C8_certmagic_on_demand_disabled (et : Bool) (token : String)
    (hosts : List String) (ca : String)
    (mk : CloudflareConfig → Except String ChallengeProvider)
    (tc : Except String Unit) (cp : ChallengeProvider)
    (htoken : token.length ≠ 0)
    (hmk : mk { authToken := token, zoneToken := token } = Except.ok cp) :
    runTLSSetup true et "certmagic" "cloudflare" token hosts ca mk tc =
      RunTLSResult.ok [ServerOption.enableACME true, ServerOption.acmeHostsOpt hosts,
        ServerOption.acmeProviderOpt (ACMEProviderValue.certmagicProvider true ca
          { lockLayer := SyncLayer.memorySync, store := Store.serviceStore } cp false)] := by
  simp [runTLSSetup, htoken, hmk]

theorem C8_witness :
    "tok".length ≠ 0 ∧
    mkCloudflareOk { authToken := "tok", zoneToken := "tok" } =
      Except.ok (ChallengeProvider.cloudflareDNS { authToken := "tok", zoneToken := "tok" }) ∧
    runTLSSetup true false "certmagic" "cloudflare" "tok" ["web.example.com"] "leCA"
        mkCloudflareOk (Except.ok ()) =
      RunTLSResult.ok [ServerOption.enableACME true,
        ServerOption.acmeHostsOpt ["web.example.com"],
        ServerOption.acmeProviderOpt (ACMEProviderValue.certmagicProvider true "leCA"
          { lockLayer := SyncLayer.memorySync, store := Store.serviceStore }
          (ChallengeProvider.cloudflareDNS { authToken := "tok", zoneToken := "tok" }) false)] :=
  ⟨by decide, rfl,
    C8_certmagic_on_demand_disabled false "tok" ["web.example.com"] "leCA" mkCloudflareOk
      (Except.ok ()) (ChallengeProvider.cloudflareDNS { authToken := "tok", zoneToken := "tok" })
      (by decide) rfl⟩

/-- C9: evaluation at the failing input: "m6o" has length at most three and
contains the decimal digit six, yet the dashboard displays it unchanged,
because the digit set "012345789" in web.go line 238 omits the character 6;
"m3o" by contrast is uppercased as the claim describes. -/
theorem C9_digit_six_not_uppercased :
    ("m6o".length ≤ 3 ∧ "m6o".data.contains '6' = true ∧ Char.isDigit '6' = true) ∧
    indexDisplayName "m6o" = "m6o" ∧
    indexDisplayName "m3o" = "M3O" := by
  exact ⟨⟨by decide, by decide, by decide⟩, by decide, by decide⟩

end MicroWeb
